import Mathlib

/-!
Verification of the OceanbaseMultimodelDemo fixture dispatcher and its
presentation layer, shallowly embedded from the Python sources
`src/mcp_tools.py` and `src/interactive_mcp_demo.py`.

Embedding conventions:
* Python dict values appearing in the fixture result sets are either strings
  or small integers, modelled by `Val`.
* A result record (a Python dict) is a `List (String × Val)` in the literal
  key order of the source.
* The returned envelope dict is modelled by `Envelope`; a dict that has no
  `"data"` key at all is modelled by `data = none`, while a present but empty
  list is `data = some []`.
* `str.lower()` is modelled by ASCII case folding (`Char.toLower`), which
  agrees with Python on every string occurring in the dispatcher's rules.
* `pat in s` (substring test) and `s.startswith(pat)` are modelled by
  executable list-of-characters functions below.
-/

set_option maxRecDepth 100000

/-- A scalar value stored in a fixture record: a string or an integer. -/
inductive Val where
  | s : String → Val
  | n : Int → Val
deriving DecidableEq

/-- A fixture record: a Python dict, kept in literal key order. -/
abbrev Record := List (String × Val)

/-- The envelope dict returned by `use_mcp_tool`.  `data = none` models a
returned dict that has no `"data"` key. -/
structure Envelope where
  status : String
  data : Option (List Record)
  message : String
deriving DecidableEq

/-- `dict.get(key, "")` on a string-valued argument dict, modelled over an
association list (embeds `arguments.get("query", "")`). -/
def pyGet (args : List (String × String)) (k : String) : String :=
  match args with
  | [] => ""
  | (k', v) :: rest => if k' = k then v else pyGet rest k

/-- ASCII case folding of a character list (embeds `str.lower()`). -/
def lowerChars (s : List Char) : List Char :=
  s.map Char.toLower

/-- ASCII case folding of a string (embeds `str.lower()`). -/
def strLower (s : String) : String :=
  String.mk (lowerChars s.toList)

/-- `pat` is a leading segment of `s` (character lists). -/
def isPrefList : List Char → List Char → Bool
  | [], _ => true
  | _ :: _, [] => false
  | a :: pat, b :: s => a == b && isPrefList pat s

/-- `pat` occurs somewhere inside `s` (character lists); embeds Python's
`pat in s`. -/
def subList (pat : List Char) : List Char → Bool
  | [] => isPrefList pat []
  | c :: rest => isPrefList pat (c :: rest) || subList pat rest

/-- Python `pat in s` on strings. -/
def strContains (s pat : String) : Bool :=
  subList pat.toList s.toList

/-- Python `s.startswith(pat)` on strings. -/
def pyStartsWith (s pat : String) : Bool :=
  isPrefList pat.toList s.toList

/-- Rule 1 predicate of `use_mcp_tool` (src/mcp_tools.py line 32): the
ten-property listing query. -/
def matchesTen (q : String) : Bool :=
  strContains q "property_id, address, price from unified_properties"

/-- Rule 2 predicate (line 51): the five-token luxury waterfront query. -/
def matchesFive (q : String) : Bool :=
  strContains q "json_extract" && strContains q "bedrooms" &&
  strContains q "json_contains" && strContains q "pool" &&
  strContains q "home theater"

/-- Rule 3 predicate (line 69): the broad luxury waterfront query. -/
def matchesLux (q : String) : Bool :=
  strContains q "luxury waterfront" && strContains q "seattle"

/-- Rule 4 predicate (line 87): the family-friendly query. -/
def matchesFam (q : String) : Bool :=
  strContains q "family-friendly" && strContains q "san francisco"

/-- The ten-property fixture (src/mcp_tools.py lines 36-47). -/
def tenPropertiesData : List Record :=
  [ [("property_id", .n 1), ("address", .s "123 Waterfront Ave, Seattle, WA"), ("price", .s "1500000.00")],
    [("property_id", .n 2), ("address", .s "456 Family Lane, San Francisco, CA"), ("price", .s "750000.00")],
    [("property_id", .n 3), ("address", .s "789 Investment Blvd, Portland, OR"), ("price", .s "450000.00")],
    [("property_id", .n 4), ("address", .s "101 Sustainable Way, Rural Portland, OR"), ("price", .s "850000.00")],
    [("property_id", .n 5), ("address", .s "555 Beach Dr, Malibu, CA"), ("price", .s "3200000.00")],
    [("property_id", .n 6), ("address", .s "222 Historic St, Boston, MA"), ("price", .s "1750000.00")],
    [("property_id", .n 7), ("address", .s "333 Pet Haven Ln, Chicago, IL"), ("price", .s "425000.00")],
    [("property_id", .n 8), ("address", .s "444 Retirement Dream Rd, Phoenix, AZ"), ("price", .s "550000.00")],
    [("property_id", .n 9), ("address", .s "777 Innovation Dr, San Jose, CA"), ("price", .s "1850000.00")],
    [("property_id", .n 10), ("address", .s "888 College View Dr, Berkeley, CA"), ("price", .s "1250000.00")] ]

/-- The fixture returned by the five-token rule (src/mcp_tools.py
lines 55-66), transcribed from that code block. -/
def waterfrontSpecificData : List Record :=
  [ [ ("property_id", .n 1),
      ("address", .s "123 Waterfront Ave, Seattle, WA"),
      ("price", .s "1500000.00"),
      ("bedrooms", .s "5"),
      ("amenities", .s "[\"pool\", \"home theater\", \"garden\", \"fireplace\", \"smart home\"]"),
      ("description_excerpt", .s "Experience the epitome of luxury waterfront living in this stunning 5-bedroom modern minimalist architecture masterpiece in Seattle. This property features panoramic views of the Puget Sound, a private pool, home theater, and smart home technology throughout."),
      ("distance_km", .s "0.0000"),
      ("vector_score", .s "3") ] ]

/-- The fixture returned by the broad luxury waterfront rule
(src/mcp_tools.py lines 73-84), transcribed from that code block. -/
def waterfrontBroadData : List Record :=
  [ [ ("property_id", .n 1),
      ("address", .s "123 Waterfront Ave, Seattle, WA"),
      ("price", .s "1500000.00"),
      ("bedrooms", .s "5"),
      ("amenities", .s "[\"pool\", \"home theater\", \"garden\", \"fireplace\", \"smart home\"]"),
      ("description_excerpt", .s "Experience the epitome of luxury waterfront living in this stunning 5-bedroom modern minimalist architecture masterpiece in Seattle. This property features panoramic views of the Puget Sound, a private pool, home theater, and smart home technology throughout."),
      ("distance_km", .s "0.0000"),
      ("vector_score", .s "3") ] ]

/-- The fixture returned by the family-friendly rule (src/mcp_tools.py
lines 91-102). -/
def familyData : List Record :=
  [ [ ("property_id", .n 2),
      ("address", .s "456 Family Lane, San Francisco, CA"),
      ("price", .s "750000.00"),
      ("bedrooms", .s "4"),
      ("amenities", .s "[\"fenced yard\", \"playground\", \"security system\", \"garden\"]"),
      ("description_excerpt", .s "Welcome to this charming family-friendly home in a safe neighborhood of San Francisco. This 4-bedroom property is perfect for families with its fenced yard, playground, and proximity to top-rated schools."),
      ("distance_km", .s "0.0000"),
      ("vector_score", .s "2") ] ]

/-- Shallow embedding of `use_mcp_tool` (src/mcp_tools.py lines 8-123).
The `print` on line 24 is the function's only side effect and is dropped;
everything else is the literal branch structure of the source. -/
def use_mcp_tool (server_name tool_name : String)
    (arguments : List (String × String)) : Envelope :=
  if server_name = "oceanbase" ∧ tool_name = "execute_sql" then
    let query := strLower (pyGet arguments "query")
    if pyStartsWith query "select" then
      if matchesTen query then
        ⟨"success", some tenPropertiesData, "Query executed successfully"⟩
      else if matchesFive query then
        ⟨"success", some waterfrontSpecificData, "Query executed successfully"⟩
      else if matchesLux query then
        ⟨"success", some waterfrontBroadData, "Query executed successfully"⟩
      else if matchesFam query then
        ⟨"success", some familyData, "Query executed successfully"⟩
      else
        ⟨"success", some [], "Query executed successfully"⟩
    else
      ⟨"success", none, "Query executed successfully"⟩
  else
    ⟨"success", none,
      "Tool " ++ tool_name ++ " executed successfully on server " ++ server_name⟩

/-- Variant of `use_mcp_tool` in which the registration order of the
five-token rule (source line 51) and of the broad luxury waterfront rule
(source line 69) is exchanged; used to study whether the relative order of
the two rules is observable. -/
def use_mcp_tool_swapped (server_name tool_name : String)
    (arguments : List (String × String)) : Envelope :=
  if server_name = "oceanbase" ∧ tool_name = "execute_sql" then
    let query := strLower (pyGet arguments "query")
    if pyStartsWith query "select" then
      if matchesTen query then
        ⟨"success", some tenPropertiesData, "Query executed successfully"⟩
      else if matchesLux query then
        ⟨"success", some waterfrontBroadData, "Query executed successfully"⟩
      else if matchesFive query then
        ⟨"success", some waterfrontSpecificData, "Query executed successfully"⟩
      else if matchesFam query then
        ⟨"success", some familyData, "Query executed successfully"⟩
      else
        ⟨"success", some [], "Query executed successfully"⟩
    else
      ⟨"success", none, "Query executed successfully"⟩
  else
    ⟨"success", none,
      "Tool " ++ tool_name ++ " executed successfully on server " ++ server_name⟩

/-- Two successive calls of `use_mcp_tool` on the same arguments.  The
Python module keeps no mutable state between calls (its only effect is a
`print`), so the second call is the same pure application as the first. -/
def callTwice (server_name tool_name : String)
    (arguments : List (String × String)) : Envelope × Envelope :=
  (use_mcp_tool server_name tool_name arguments,
   use_mcp_tool server_name tool_name arguments)

/-- `caseVariantChars a b` holds when the two character lists differ only in
letter case: they have the same length and corresponding characters agree
after ASCII case folding. -/
def caseVariantChars : List Char → List Char → Bool
  | [], [] => true
  | a :: as, b :: bs => Char.toLower a == Char.toLower b && caseVariantChars as bs
  | _, _ => false

/-!  Presentation layer: `MCPDemo.format_results`
(src/interactive_mcp_demo.py lines 218-259). -/

/-- The `amenities` value read by the formatter: Python stores either a list
of strings or some other value rendered with `str` (line 235). -/
inductive Amenities where
  | lst : List String → Amenities
  | txt : String → Amenities
deriving DecidableEq

/-- The fields of a sample-result dict that `format_results` reads.  A
missing dict key is `none`.  The numeric fields (`price`, `bedrooms`,
`distance_km`, `investment_similarity`) are carried as the text produced by
the Python format specifier, since floating-point rendering itself is not
part of this embedding. -/
structure PropRecord where
  address : Option String
  city : Option String
  state : Option String
  price : Option String
  bedrooms : Option String
  amenities : Option Amenities
  distance_km : Option String
  investment_similarity : Option String
  description : Option String
deriving DecidableEq

/-- Python `s[:n]`: the first `n` characters of `s`, or all of `s` when it
is shorter. -/
def pySliceTo (s : String) (n : Nat) : String :=
  String.mk (s.toList.take n)

/-- Header line of one record (source line 226): address, city and state
with the `N/A` fallback of `dict.get`. -/
def recordHeader (i : Nat) (p : PropRecord) : String :=
  "Property " ++ toString i ++ ": " ++ p.address.getD "N/A" ++ ", " ++
    p.city.getD "N/A" ++ ", " ++ p.state.getD "N/A" ++ "\n"

/-- The price line (source lines 228-229), emitted only when the key is
present. -/
def priceLine (p : PropRecord) : String :=
  match p.price with
  | some v => "Price: $" ++ v ++ "\n"
  | none => ""

/-- The bedrooms line (source lines 231-232). -/
def bedroomsLine (p : PropRecord) : String :=
  match p.bedrooms with
  | some v => "Bedrooms: " ++ v ++ "\n"
  | none => ""

/-- The amenities line (source lines 234-238): a list value is joined with
`", "`, any other value is rendered directly. -/
def amenitiesLine (p : PropRecord) : String :=
  match p.amenities with
  | some (.lst l) => "Amenities: " ++ String.intercalate ", " l ++ "\n"
  | some (.txt v) => "Amenities: " ++ v ++ "\n"
  | none => ""

/-- The distance line (source lines 240-241). -/
def distanceLine (p : PropRecord) : String :=
  match p.distance_km with
  | some v => "Distance from Seattle: " ++ v ++ " km\n"
  | none => ""

/-- The investment-similarity line (source lines 243-244). -/
def similarityLine (p : PropRecord) : String :=
  match p.investment_similarity with
  | some v => "Investment Similarity: " ++ v ++ " (lower is better)\n"
  | none => ""

/-- The description line (source lines 246-247): the first 100 characters
of the description followed by `"..."`. -/
def descriptionLine (p : PropRecord) : String :=
  match p.description with
  | some d => "Description: " ++ pySliceTo d 100 ++ "...\n"
  | none => ""

/-- One record block of `format_results` (source lines 225-249): the header
followed by the six optional lines and a blank line. -/
def formatRecord (i : Nat) (p : PropRecord) : String :=
  recordHeader i p ++ priceLine p ++ bedroomsLine p ++ amenitiesLine p ++
    distanceLine p ++ similarityLine p ++ descriptionLine p ++ "\n"

/-- All record blocks, numbered from `i` (embeds `enumerate(results, 1)`). -/
def formatRecords (i : Nat) : List PropRecord → String
  | [] => ""
  | p :: rest => formatRecord i p ++ formatRecords (i + 1) rest

/-- The trailer appended for the investment query (source lines 251-257). -/
def investmentTrailer : String :=
  "\nThis search demonstrates OceanBase\x27s multi-model capabilities by combining:\n" ++
  "1. Vector search for investment profile matching\n" ++
  "2. JSON filtering for property features\n" ++
  "3. Full-text search for property descriptions\n" ++
  "4. Spatial search for location-based filtering\n" ++
  "5. Traditional relational data for basic property information\n"

/-- Shallow embedding of `MCPDemo.format_results` (source lines 218-259). -/
def format_results (results : List PropRecord) (query_type : String) : String :=
  if results.isEmpty then
    "No properties found matching your criteria."
  else
    let out := "\n=== " ++ query_type ++ " Results ===\n\n" ++ formatRecords 1 results
    if query_type = "Investment Properties" then out ++ investmentTrailer else out

/-! Helper lemmas. -/

theorem strAppend_assoc (a b c : String) : a ++ b ++ c = a ++ (b ++ c) := by
  apply String.ext
  simp [String.data_append, List.append_assoc]

theorem line_ne_empty (a v b : String) (hb : b.data ≠ []) : a ++ v ++ b ≠ "" := by
  intro h
  have hd : (a ++ v ++ b).data = ("" : String).data := congrArg String.data h
  simp only [String.data_append] at hd
  rw [List.append_eq_nil] at hd
  exact hb hd.2

theorem caseVariantChars_lower : ∀ as bs : List Char,
    caseVariantChars as bs = true → lowerChars as = lowerChars bs
  | [], [], _ => rfl
  | [], _ :: _, h => by simp [caseVariantChars] at h
  | _ :: _, [], h => by simp [caseVariantChars] at h
  | a :: as, b :: bs, h => by
    simp only [caseVariantChars, Bool.and_eq_true, beq_iff_eq] at h
    have ih := caseVariantChars_lower as bs h.2
    simp only [lowerChars, List.map_cons] at ih ⊢
    rw [h.1, ih]

theorem pyGet_query (q : String) : pyGet [("query", q)] "query" = q := by
  simp [pyGet]

theorem use_mcp_tool_other (s t : String) (a : List (String × String))
    (h : ¬(s = "oceanbase" ∧ t = "execute_sql")) :
    use_mcp_tool s t a =
      ⟨"success", none, "Tool " ++ t ++ " executed successfully on server " ++ s⟩ := by
  simp [use_mcp_tool, h]

theorem use_mcp_tool_nonselect (a : List (String × String))
    (h : pyStartsWith (strLower (pyGet a "query")) "select" = false) :
    use_mcp_tool "oceanbase" "execute_sql" a =
      ⟨"success", none, "Query executed successfully"⟩ := by
  simp [use_mcp_tool, h]

theorem use_mcp_tool_select_data (a : List (String × String))
    (h : pyStartsWith (strLower (pyGet a "query")) "select" = true) :
    ∃ l, use_mcp_tool "oceanbase" "execute_sql" a =
      ⟨"success", some l, "Query executed successfully"⟩ := by
  simp only [use_mcp_tool, and_self, if_true, h]
  split
  · exact ⟨_, rfl⟩
  split
  · exact ⟨_, rfl⟩
  split
  · exact ⟨_, rfl⟩
  split
  · exact ⟨_, rfl⟩
  · exact ⟨_, rfl⟩

/-- C1: counterexample to the claim as stated.  On the empty query — on
which no registered predicate matches — the dispatch call does NOT return
the envelope with an empty `data` list: the returned dict has no `data`
key at all (modelled by `data = none`). -/
theorem c1_empty_string_cex :
    matchesTen (strLower "") = false ∧ matchesFive (strLower "") = false ∧
    matchesLux (strLower "") = false ∧ matchesFam (strLower "") = false ∧
    use_mcp_tool "oceanbase" "execute_sql" [("query", "")] ≠
      ⟨"success", some [], "Query executed successfully"⟩ ∧
    (use_mcp_tool "oceanbase" "execute_sql" [("query", "")]).data = none := by
  decide

/-- C1 (amended): for every query whose case-folded text starts with
`select` and on which no registered predicate matches, dispatch returns
the non-error envelope with status `success`, empty `data` list and message
`Query executed successfully`; a query that does not start with `select`
(the empty string included) instead returns a success envelope carrying no
`data` field. -/
theorem c1_no_match_fallback :
    (∀ q : String, pyStartsWith (strLower q) "select" = true →
      matchesTen (strLower q) = false → matchesFive (strLower q) = false →
      matchesLux (strLower q) = false → matchesFam (strLower q) = false →
      use_mcp_tool "oceanbase" "execute_sql" [("query", q)] =
        ⟨"success", some [], "Query executed successfully"⟩) ∧
    (∀ q : String, pyStartsWith (strLower q) "select" = false →
      use_mcp_tool "oceanbase" "execute_sql" [("query", q)] =
        ⟨"success", none, "Query executed successfully"⟩) := by
  constructor
  · intro q h1 h2 h3 h4 h5
    simp [use_mcp_tool, pyGet, h1, h2, h3, h4, h5]
  · intro q h1
    simp [use_mcp_tool, pyGet, h1]

/-- C1: the amended theorem applied to the concrete queries
`"select 1"` (no predicate matches) and `"show tables"` (not a SELECT). -/
theorem c1_no_match_fallback_app :
    use_mcp_tool "oceanbase" "execute_sql" [("query", "select 1")] =
      ⟨"success", some [], "Query executed successfully"⟩ ∧
    use_mcp_tool "oceanbase" "execute_sql" [("query", "show tables")] =
      ⟨"success", none, "Query executed successfully"⟩ :=
  ⟨c1_no_match_fallback.1 "select 1" (by decide) (by decide) (by decide)
      (by decide) (by decide),
   c1_no_match_fallback.2 "show tables" (by decide)⟩

/-- C2: counterexample to the claim as stated.  The query text
`"json_extract bedrooms json_contains pool home theater"` contains all five
tokens, yet dispatch does not return the single-record waterfront result,
because the query does not start with `select`. -/
theorem c2_universal_cex :
    matchesFive (strLower "json_extract bedrooms json_contains pool home theater") = true ∧
    use_mcp_tool "oceanbase" "execute_sql"
      [("query", "json_extract bedrooms json_contains pool home theater")] ≠
      ⟨"success", some waterfrontSpecificData, "Query executed successfully"⟩ ∧
    (use_mcp_tool "oceanbase" "execute_sql"
      [("query", "json_extract bedrooms json_contains pool home theater")]).data = none := by
  decide

/-- C2 (amended): for every query whose case-folded text starts with
`select`, contains the five tokens `json_extract`, `bedrooms`,
`json_contains`, `pool` and `home theater`, and does not contain the
ten-property marker `property_id, address, price from unified_properties`,
dispatch returns the single-record result whose only record is the
`123 Waterfront Ave, Seattle, WA` property with `vector_score` `"3"` —
the five-token rule is evaluated before the broader
`luxury waterfront`+`seattle` rule. -/
theorem c2_specific_rule_wins (q : String)
    (hsel : pyStartsWith (strLower q) "select" = true)
    (hfive : matchesFive (strLower q) = true)
    (hten : matchesTen (strLower q) = false) :
    use_mcp_tool "oceanbase" "execute_sql" [("query", q)] =
      ⟨"success", some waterfrontSpecificData, "Query executed successfully"⟩ ∧
    waterfrontSpecificData.length = 1 ∧
    List.lookup "address" (waterfrontSpecificData.head?.getD []) =
      some (.s "123 Waterfront Ave, Seattle, WA") ∧
    List.lookup "vector_score" (waterfrontSpecificData.head?.getD []) =
      some (.s "3") := by
  refine ⟨?_, by decide, by decide, by decide⟩
  simp [use_mcp_tool, pyGet, hsel, hfive, hten]

/-- C2: the amended theorem applied to a concrete query that also satisfies
the broader `luxury waterfront`+`seattle` rule, showing the specific rule
wins. -/
theorem c2_specific_rule_wins_app :
    matchesLux (strLower "SELECT json_extract bedrooms json_contains pool home theater luxury waterfront seattle") = true ∧
    use_mcp_tool "oceanbase" "execute_sql"
      [("query", "SELECT json_extract bedrooms json_contains pool home theater luxury waterfront seattle")] =
      ⟨"success", some waterfrontSpecificData, "Query executed successfully"⟩ :=
  ⟨by decide,
   (c2_specific_rule_wins
      "SELECT json_extract bedrooms json_contains pool home theater luxury waterfront seattle"
      (by decide) (by decide) (by decide)).1⟩

/-- C3: counterexample to the claim as stated.  The query text
`"family-friendly san francisco"` contains both tokens, yet dispatch
returns no record at all (the query does not start with `select`, so the
rule chain is never reached). -/
theorem c3_universal_cex :
    matchesFam (strLower "family-friendly san francisco") = true ∧
    use_mcp_tool "oceanbase" "execute_sql"
      [("query", "family-friendly san francisco")] ≠
      ⟨"success", some familyData, "Query executed successfully"⟩ ∧
    (use_mcp_tool "oceanbase" "execute_sql"
      [("query", "family-friendly san francisco")]).data = none := by
  decide

/-- C3 (amended): for every query whose case-folded text starts with
`select`, contains `family-friendly` and `san francisco`, and matches none
of the three earlier-registered rules, dispatch returns exactly one record:
property_id 2, `456 Family Lane, San Francisco, CA`, vector_score `"2"`. -/
theorem c3_family_friendly_rule (q : String)
    (hsel : pyStartsWith (strLower q) "select" = true)
    (hfam : matchesFam (strLower q) = true)
    (hten : matchesTen (strLower q) = false)
    (hfive : matchesFive (strLower q) = false)
    (hlux : matchesLux (strLower q) = false) :
    use_mcp_tool "oceanbase" "execute_sql" [("query", q)] =
      ⟨"success", some familyData, "Query executed successfully"⟩ ∧
    familyData.length = 1 ∧
    List.lookup "property_id" (familyData.head?.getD []) = some (.n 2) ∧
    List.lookup "address" (familyData.head?.getD []) =
      some (.s "456 Family Lane, San Francisco, CA") ∧
    List.lookup "vector_score" (familyData.head?.getD []) = some (.s "2") := by
  refine ⟨?_, by decide, by decide, by decide, by decide⟩
  simp [use_mcp_tool, pyGet, hsel, hfam, hten, hfive, hlux]

/-- C3: the amended theorem applied to a concrete query. -/
theorem c3_family_friendly_rule_app :
    use_mcp_tool "oceanbase" "execute_sql"
      [("query", "SELECT homes that are Family-Friendly in San Francisco")] =
      ⟨"success", some familyData, "Query executed successfully"⟩ :=
  (c3_family_friendly_rule
      "SELECT homes that are Family-Friendly in San Francisco"
      (by decide) (by decide) (by decide) (by decide) (by decide)).1

/-- C4: counterexample to the claim as stated.  For the same fixed query,
changing `serverName` from `oceanbase` to `files` changes the returned
envelope, so `serverName`/`toolName` are not inert across all pairs. -/
theorem c4_pair_alters_envelope_cex :
    use_mcp_tool "oceanbase" "execute_sql" [("query", "select x")] ≠
      use_mcp_tool "files" "execute_sql" [("query", "select x")] := by
  decide

/-- C4 (amended): `serverName`/`toolName` influence the result only through
the test `(serverName, toolName) = ("oceanbase", "execute_sql")`: any two
pairs passing the test give identical envelopes for the same arguments, and
for a pair failing the test the envelope is independent of the query and
carries no `data` field. -/
theorem c4_server_tool_noninterference :
    (∀ (a : List (String × String)) (s t s' t' : String),
      s = "oceanbase" → t = "execute_sql" → s' = "oceanbase" →
      t' = "execute_sql" → use_mcp_tool s t a = use_mcp_tool s' t' a) ∧
    (∀ (s t : String) (a a' : List (String × String)),
      ¬(s = "oceanbase" ∧ t = "execute_sql") →
      use_mcp_tool s t a = use_mcp_tool s t a' ∧
      (use_mcp_tool s t a).data = none) := by
  constructor
  · intro a s t s' t' hs ht hs' ht'
    subst hs; subst ht; subst hs'; subst ht'
    rfl
  · intro s t a a' h
    rw [use_mcp_tool_other s t a h, use_mcp_tool_other s t a' h]
    exact ⟨rfl, rfl⟩

/-- C4: the amended theorem applied at concrete inputs: both halves
instantiated, the second at the non-dispatch pair `("files", "read_file")`
with two different argument dicts. -/
theorem c4_server_tool_noninterference_app :
    use_mcp_tool "oceanbase" "execute_sql" [("query", "select x")] =
      use_mcp_tool "oceanbase" "execute_sql" [("query", "select x")] ∧
    (use_mcp_tool "files" "read_file" [("query", "select x")] =
       use_mcp_tool "files" "read_file" [("query", "another query")] ∧
     (use_mcp_tool "files" "read_file" [("query", "select x")]).data = none) :=
  ⟨c4_server_tool_noninterference.1 [("query", "select x")]
      "oceanbase" "execute_sql" "oceanbase" "execute_sql" rfl rfl rfl rfl,
   c4_server_tool_noninterference.2 "files" "read_file"
      [("query", "select x")] [("query", "another query")] (by decide)⟩

/-- C5: counterexample to the claim as stated.  On the non-SELECT query
`"update x set y"` the call succeeds, but the returned dict carries no
`data` key at all (`data = none`), so it is not true that every call
carries a populated or empty data set. -/
theorem c5_missing_data_cex :
    (use_mcp_tool "oceanbase" "execute_sql" [("query", "update x set y")]).status =
      "success" ∧
    (use_mcp_tool "oceanbase" "execute_sql" [("query", "update x set y")]).data =
      none ∧
    (use_mcp_tool "oceanbase" "execute_sql" [("query", "update x set y")]).data ≠
      some [] := by
  decide

/-- C5 (amended): every call of `use_mcp_tool`, for every combination of
serverName, toolName and arguments, returns an envelope whose status is
`"success"` — there is no failure path — and the envelope carries a `data`
list (populated or empty) exactly when the serverName is `oceanbase`, the
toolName is `execute_sql` and the case-folded query starts with `select`;
all other calls return a success envelope without a `data` field. -/
theorem c5_always_success (s t : String) (a : List (String × String)) :
    (use_mcp_tool s t a).status = "success" ∧
    ((use_mcp_tool s t a).data.isSome = true ↔
      (s = "oceanbase" ∧ t = "execute_sql" ∧
        pyStartsWith (strLower (pyGet a "query")) "select" = true)) := by
  by_cases hst : s = "oceanbase" ∧ t = "execute_sql"
  · obtain ⟨hs, ht⟩ := hst
    subst hs; subst ht
    by_cases hsel : pyStartsWith (strLower (pyGet a "query")) "select" = true
    · obtain ⟨l, hl⟩ := use_mcp_tool_select_data a hsel
      rw [hl]
      simp [hsel]
    · have hsel' : pyStartsWith (strLower (pyGet a "query")) "select" = false :=
        Bool.eq_false_iff.mpr hsel
      rw [use_mcp_tool_nonselect a hsel']
      simp [hsel]
  · rw [use_mcp_tool_other s t a hst]
    simp
    intro hs ht
    exact absurd ⟨hs, ht⟩ hst

/-- C5: the amended theorem applied at a concrete SELECT call and read off
for its first component. -/
theorem c5_always_success_app :
    (use_mcp_tool "oceanbase" "execute_sql" [("query", "select q")]).status =
      "success" ∧
    ((use_mcp_tool "oceanbase" "execute_sql" [("query", "select q")]).data.isSome = true ↔
      ("oceanbase" = "oceanbase" ∧ "execute_sql" = "execute_sql" ∧
        pyStartsWith (strLower (pyGet [("query", "select q")] "query")) "select" = true)) :=
  c5_always_success "oceanbase" "execute_sql" [("query", "select q")]

/-- C6: dispatch is case-insensitive in the query argument.  If two query
strings differ only in letter case (same length, corresponding characters
equal after case folding), the calls return identical envelopes, because
the dispatcher case-folds the query before any predicate is evaluated. -/
theorem c6_case_insensitive (s t q q' : String)
    (h : caseVariantChars q.toList q'.toList = true) :
    use_mcp_tool s t [("query", q)] = use_mcp_tool s t [("query", q')] := by
  have hl : strLower q = strLower q' :=
    congrArg String.mk (caseVariantChars_lower _ _ h)
  by_cases hst : s = "oceanbase" ∧ t = "execute_sql"
  · simp only [use_mcp_tool, if_pos hst, pyGet_query]
    rw [hl]
  · rw [use_mcp_tool_other s t _ hst, use_mcp_tool_other s t _ hst]

/-- C6: the theorem applied to the concrete pair from the specification:
`dispatch("SELECT * FROM unified_properties")` and
`dispatch("select * from unified_properties")` return the identical
envelope. -/
theorem c6_case_insensitive_app :
    caseVariantChars "SELECT * FROM unified_properties".toList
      "select * from unified_properties".toList = true ∧
    use_mcp_tool "oceanbase" "execute_sql"
      [("query", "SELECT * FROM unified_properties")] =
    use_mcp_tool "oceanbase" "execute_sql"
      [("query", "select * from unified_properties")] :=
  ⟨by decide,
   c6_case_insensitive "oceanbase" "execute_sql"
     "SELECT * FROM unified_properties" "select * from unified_properties"
     (by decide)⟩

/-- C7: dispatch is deterministic and idempotent: two successive calls of
`use_mcp_tool` with the same serverName, toolName and arguments produce two
structurally equal envelopes.  The embedded module holds no mutable state —
its only side effect is a `print` — so a call is a pure function of its
arguments and the two components of `callTwice` coincide. -/
theorem c7_deterministic_idempotent (s t : String)
    (a : List (String × String)) :
    (callTwice s t a).1 = (callTwice s t a).2 := rfl

/-- C8: when a rendered record has a `description` field, the displayed
description is exactly the first 100 characters of the description (all of
it when shorter), followed by the ellipsis marker `"..."`. -/
theorem c8_description_truncated (i : Nat) (p : PropRecord) (d : String)
    (h : p.description = some d) :
    formatRecord i p =
      recordHeader i p ++ priceLine p ++ bedroomsLine p ++ amenitiesLine p ++
        distanceLine p ++ similarityLine p ++
        ("Description: " ++ pySliceTo d 100 ++ "...\n") ++ "\n" ∧
    (pySliceTo d 100).toList = d.toList.take 100 ∧
    (d.toList.length ≤ 100 → pySliceTo d 100 = d) := by
  refine ⟨?_, rfl, ?_⟩
  · simp [formatRecord, descriptionLine, h]
  · intro hlen
    unfold pySliceTo
    rw [List.take_of_length_le hlen]
    exact String.ext rfl

/-- A sample record carrying a description, used to instantiate C8. -/
def descRecordEx : PropRecord :=
  ⟨some "1 Example St", some "Seattle", some "WA", none, none, none, none,
    none, some "A compact demo description"⟩

/-- C8: the theorem applied to a concrete record whose description is
shorter than 100 characters. -/
theorem c8_description_truncated_app :
    formatRecord 1 descRecordEx =
      recordHeader 1 descRecordEx ++ priceLine descRecordEx ++
        bedroomsLine descRecordEx ++ amenitiesLine descRecordEx ++
        distanceLine descRecordEx ++ similarityLine descRecordEx ++
        ("Description: " ++ pySliceTo "A compact demo description" 100 ++
          "...\n") ++ "\n" ∧
    (pySliceTo "A compact demo description" 100).toList =
      "A compact demo description".toList.take 100 ∧
    ("A compact demo description".toList.length ≤ 100 →
      pySliceTo "A compact demo description" 100 =
        "A compact demo description") :=
  c8_description_truncated 1 descRecordEx "A compact demo description" rfl

/-- C9: `format_results` tolerates records missing any optional field: for
every non-empty record list it renders the results header (no error path),
each record block is the header line followed by the six optional lines,
and each optional line is emitted (non-empty) exactly when the
corresponding field is present. -/
theorem c9_optional_fields_tolerated (results : List PropRecord)
    (query_type : String) (i : Nat) (p : PropRecord)
    (hne : results ≠ []) :
    (∃ body, format_results results query_type =
      "\n=== " ++ query_type ++ " Results ===\n\n" ++ body) ∧
    formatRecord i p = recordHeader i p ++ priceLine p ++ bedroomsLine p ++
      amenitiesLine p ++ distanceLine p ++ similarityLine p ++
      descriptionLine p ++ "\n" ∧
    ((priceLine p = "") ↔ p.price = none) ∧
    ((bedroomsLine p = "") ↔ p.bedrooms = none) ∧
    ((amenitiesLine p = "") ↔ p.amenities = none) ∧
    ((distanceLine p = "") ↔ p.distance_km = none) ∧
    ((similarityLine p = "") ↔ p.investment_similarity = none) ∧
    ((descriptionLine p = "") ↔ p.description = none) := by
  refine ⟨?_, rfl, ?_, ?_, ?_, ?_, ?_, ?_⟩
  · cases results with
    | nil => exact absurd rfl hne
    | cons r rs =>
      by_cases hq : query_type = "Investment Properties"
      · refine ⟨formatRecords 1 (r :: rs) ++ investmentTrailer, ?_⟩
        simp [format_results, hq, strAppend_assoc]
      · refine ⟨formatRecords 1 (r :: rs), ?_⟩
        simp [format_results, hq]
  · cases hp : p.price with
    | none => simp [priceLine, hp]
    | some v => simp [priceLine, hp, line_ne_empty "Price: $" v "\n" (by decide)]
  · cases hb : p.bedrooms with
    | none => simp [bedroomsLine, hb]
    | some v =>
      simp [bedroomsLine, hb, line_ne_empty "Bedrooms: " v "\n" (by decide)]
  · cases ha : p.amenities with
    | none => simp [amenitiesLine, ha]
    | some am =>
      cases am with
      | lst l =>
        simp [amenitiesLine, ha,
          line_ne_empty "Amenities: " (String.intercalate ", " l) "\n" (by decide)]
      | txt v =>
        simp [amenitiesLine, ha,
          line_ne_empty "Amenities: " v "\n" (by decide)]
  · cases hd : p.distance_km with
    | none => simp [distanceLine, hd]
    | some v =>
      simp [distanceLine, hd,
        line_ne_empty "Distance from Seattle: " v " km\n" (by decide)]
  · cases hs : p.investment_similarity with
    | none => simp [similarityLine, hs]
    | some v =>
      simp [similarityLine, hs,
        line_ne_empty "Investment Similarity: " v " (lower is better)\n" (by decide)]
  · cases hds : p.description with
    | none => simp [descriptionLine, hds]
    | some d =>
      simp [descriptionLine, hds,
        line_ne_empty "Description: " (pySliceTo d 100) "...\n" (by decide)]

/-- A sample record with every optional field missing, used to instantiate
C9. -/
def bareRecordEx : PropRecord :=
  ⟨some "9 Bare Rd", none, none, none, none, none, none, none, none⟩

/-- C9: the theorem applied to a one-record list whose record is missing
every optional field. -/
theorem c9_optional_fields_tolerated_app :
    (∃ body, format_results [bareRecordEx] "Sample" =
      "\n=== " ++ "Sample" ++ " Results ===\n\n" ++ body) ∧
    formatRecord 1 bareRecordEx = recordHeader 1 bareRecordEx ++
      priceLine bareRecordEx ++ bedroomsLine bareRecordEx ++
      amenitiesLine bareRecordEx ++ distanceLine bareRecordEx ++
      similarityLine bareRecordEx ++ descriptionLine bareRecordEx ++ "\n" ∧
    ((priceLine bareRecordEx = "") ↔ bareRecordEx.price = none) ∧
    ((bedroomsLine bareRecordEx = "") ↔ bareRecordEx.bedrooms = none) ∧
    ((amenitiesLine bareRecordEx = "") ↔ bareRecordEx.amenities = none) ∧
    ((distanceLine bareRecordEx = "") ↔ bareRecordEx.distance_km = none) ∧
    ((similarityLine bareRecordEx = "") ↔
      bareRecordEx.investment_similarity = none) ∧
    ((descriptionLine bareRecordEx = "") ↔ bareRecordEx.description = none) :=
  c9_optional_fields_tolerated [bareRecordEx] "Sample" 1 bareRecordEx
    (List.cons_ne_nil _ _)

/-- C10: the five-token rule and the broad `luxury waterfront`+`seattle`
rule return structurally identical single-record fixtures, so exchanging
the registration order of the two rules never changes the envelope
returned by any call. -/
theorem c10_rule_order_immaterial :
    waterfrontSpecificData = waterfrontBroadData ∧
    ∀ (s t : String) (a : List (String × String)),
      use_mcp_tool_swapped s t a = use_mcp_tool s t a := by
  have hdata : waterfrontSpecificData = waterfrontBroadData := rfl
  refine ⟨hdata, ?_⟩
  intro s t a
  unfold use_mcp_tool use_mcp_tool_swapped
  by_cases hst : s = "oceanbase" ∧ t = "execute_sql"
  · simp only [if_pos hst]
    by_cases hsel : pyStartsWith (strLower (pyGet a "query")) "select" = true <;>
    by_cases h1 : matchesTen (strLower (pyGet a "query")) = true <;>
    by_cases h2 : matchesFive (strLower (pyGet a "query")) = true <;>
    by_cases h3 : matchesLux (strLower (pyGet a "query")) = true <;>
    by_cases h4 : matchesFam (strLower (pyGet a "query")) = true <;>
    simp [hsel, h1, h2, h3, h4, hdata]
  · simp [if_neg hst]
